import Mathlib

/-!
Verification of the Telegram message-acquisition subsystem of TradingTool-2.

The Python sources under `src/infrastructure/telegram/` and
`src/presentation/` are shallowly embedded: JSON values become an inductive
type, Python exceptions become an error type carried by `Except`, stateful
loop code becomes explicit state-passing step functions, and `float` retry
delays become rationals.  Each definition mirrors one Python function and
keeps its name where Lean allows it.
-/

namespace TradingTool

/-- A decoded JSON value as Python's `json.loads` produces it
(`None`, `bool`, `int`, `str`, `list`, `dict`).  Telegram payloads carry no
floats on the fields this development touches, so numbers are integers. -/
inductive Json where
  | null : Json
  | bool (b : Bool) : Json
  | int (n : Int) : Json
  | str (s : String) : Json
  | arr (elems : List Json) : Json
  | obj (fields : List (String × Json)) : Json
deriving Repr

/-- Python exception classes relevant to the embedded code.
`client.py` defines a single class `TelegramApiError(RuntimeError)` used for
every failure it raises; `otherException` stands for any other subclass of
`Exception` (e.g. a `TypeError` escaping from a logic defect). -/
inductive PyExcClass where
  | telegramApiError : PyExcClass
  | otherException : PyExcClass
deriving DecidableEq, Repr

/-- A raised Python exception: its class and its message. -/
structure PyError where
  klass : PyExcClass
  msg : String
deriving DecidableEq, Repr

/-- Class of the error of a failed computation, `none` on success. -/
def errKlass {α : Type} : Except PyError α → Option PyExcClass
  | .error e => some e.klass
  | .ok _ => none

/-- `dict.get(key)` on a decoded JSON object: `none` when the key is absent
and also when it maps to JSON `null` (Python returns `None` in both cases). -/
def jget : List (String × Json) → String → Option Json
  | [], _ => none
  | (k, v) :: rest, key =>
      if k = key then (match v with | .null => none | _ => some v)
      else jget rest key

/-- `client._require_dict`. -/
def _require_dict (value : Option Json) (field_name : String) :
    Except PyError (List (String × Json)) :=
  match value with
  | some (.obj fields) => .ok fields
  | _ => .error ⟨.telegramApiError, "Expected object for '" ++ field_name ++ "'"⟩

/-- `client._optional_dict`. -/
def _optional_dict (value : Option Json) :
    Except PyError (Option (List (String × Json))) :=
  match value with
  | none => .ok none
  | some (.obj fields) => .ok (some fields)
  | some _ => .error ⟨.telegramApiError, "Expected object"⟩

/-- `client._require_list`. -/
def _require_list (value : Option Json) (field_name : String) :
    Except PyError (List Json) :=
  match value with
  | some (.arr elems) => .ok elems
  | _ => .error ⟨.telegramApiError, "Expected list for '" ++ field_name ++ "'"⟩

/-- `client._optional_list`. -/
def _optional_list (value : Option Json) :
    Except PyError (Option (List Json)) :=
  match value with
  | none => .ok none
  | some (.arr elems) => .ok (some elems)
  | some _ => .error ⟨.telegramApiError, "Expected list"⟩

/-- `client._require_int` (Python `bool` is rejected explicitly; here the
`Json.bool` constructor is distinct from `Json.int`, matching that check). -/
def _require_int (value : Option Json) (field_name : String) :
    Except PyError Int :=
  match value with
  | some (.int n) => .ok n
  | _ => .error ⟨.telegramApiError, "Expected integer for '" ++ field_name ++ "'"⟩

/-- `client._optional_int`. -/
def _optional_int (value : Option Json) : Except PyError (Option Int) :=
  match value with
  | none => .ok none
  | some (.int n) => .ok (some n)
  | some _ => .error ⟨.telegramApiError, "Expected integer"⟩

/-- `client._require_str`. -/
def _require_str (value : Option Json) (field_name : String) :
    Except PyError String :=
  match value with
  | some (.str s) => .ok s
  | _ => .error ⟨.telegramApiError, "Expected string for '" ++ field_name ++ "'"⟩

/-- `client._optional_str`. -/
def _optional_str (value : Option Json) : Except PyError (Option String) :=
  match value with
  | none => .ok none
  | some (.str s) => .ok (some s)
  | some _ => .error ⟨.telegramApiError, "Expected string"⟩

/-- `client._require_bool`. -/
def _require_bool (value : Option Json) (field_name : String) :
    Except PyError Bool :=
  match value with
  | some (.bool b) => .ok b
  | _ => .error ⟨.telegramApiError, "Expected boolean for '" ++ field_name ++ "'"⟩

/-- `models.TelegramPhoto`. -/
structure TelegramPhoto where
  file_id : String
  file_unique_id : String
  width : Int
  height : Int
  file_size : Option Int
deriving DecidableEq, Repr

/-- `models.TelegramDocument`. -/
structure TelegramDocument where
  file_id : String
  file_unique_id : String
  file_name : Option String
  mime_type : Option String
  file_size : Option Int
deriving DecidableEq, Repr

/-- `models.TelegramMessage` (the `photos` tuple becomes a list). -/
structure TelegramMessage where
  update_id : Int
  message_id : Int
  chat_id : Int
  from_user_id : Option Int
  text : Option String
  caption : Option String
  photos : List TelegramPhoto
  document : Option TelegramDocument
  date_unix : Int
deriving DecidableEq, Repr

/-- `client._parse_photo`. -/
def _parse_photo (raw_photo : Json) : Except PyError TelegramPhoto := do
  let photo_map ← _require_dict (some raw_photo) "photo"
  let file_id ← _require_str (jget photo_map "file_id") "photo.file_id"
  let file_unique_id ←
    _require_str (jget photo_map "file_unique_id") "photo.file_unique_id"
  let width ← _require_int (jget photo_map "width") "photo.width"
  let height ← _require_int (jget photo_map "height") "photo.height"
  let file_size ← _optional_int (jget photo_map "file_size")
  return ⟨file_id, file_unique_id, width, height, file_size⟩

/-- `client._parse_document`. -/
def _parse_document (raw_document : Json) : Except PyError TelegramDocument := do
  let document_map ← _require_dict (some raw_document) "document"
  let file_id ← _require_str (jget document_map "file_id") "document.file_id"
  let file_unique_id ←
    _require_str (jget document_map "file_unique_id") "document.file_unique_id"
  let file_name ← _optional_str (jget document_map "file_name")
  let mime_type ← _optional_str (jget document_map "mime_type")
  let file_size ← _optional_int (jget document_map "file_size")
  return ⟨file_id, file_unique_id, file_name, mime_type, file_size⟩

/-- `client._parse_message`, with field extraction in the source's
evaluation order: chat object, sender object, photo list, document, then the
constructor arguments `update_id`, `message_id`, `chat.id`, `from.id`,
`text`, `caption`, `date`. -/
def _parse_message (update_map message_map : List (String × Json)) :
    Except PyError TelegramMessage := do
  let chat_map ← _require_dict (jget message_map "chat") "chat"
  let from_user_map ← _optional_dict (jget message_map "from")
  let raw_photos_opt ← _optional_list (jget message_map "photo")
  let raw_photos := raw_photos_opt.getD []
  let photos ← raw_photos.mapM _parse_photo
  let document ←
    match jget message_map "document" with
    | none => pure (none : Option TelegramDocument)
    | some raw_document => do
        let d ← _parse_document raw_document
        pure (some d)
  let update_id ← _require_int (jget update_map "update_id") "update_id"
  let message_id ← _require_int (jget message_map "message_id") "message_id"
  let chat_id ← _require_int (jget chat_map "id") "chat.id"
  let from_user_id ←
    match from_user_map with
    | some fu => _optional_int (jget fu "id")
    | none => pure none
  let text ← _optional_str (jget message_map "text")
  let caption ← _optional_str (jget message_map "caption")
  let date_unix ← _require_int (jget message_map "date") "date"
  return ⟨update_id, message_id, chat_id, from_user_id, text, caption,
          photos, document, date_unix⟩

/-- One iteration of the loop inside `client.TelegramApiClient.get_updates`
(lines 46-55): require the raw update to be an object, skip it when it has no
`message` field, otherwise require the message to be an object and run
`_parse_message`.  Returns `none` for a skipped update. -/
def pollElementParse (raw_update : Json) :
    Except PyError (Option TelegramMessage) :=
  match _require_dict (some raw_update) "update" with
  | .error e => .error e
  | .ok update_map =>
      match jget update_map "message" with
      | none => .ok none
      | some maybe_message =>
          match _require_dict (some maybe_message) "message" with
          | .error e => .error e
          | .ok message_map =>
              match _parse_message update_map message_map with
              | .error e => .error e
              | .ok m => .ok (some m)

/-- The full parsing loop of `get_updates` over the decoded `result` list:
parsed messages are collected in delivery order, messageless updates are
skipped, and the first parse failure aborts the whole call (the Python
exception propagates out of `get_updates`). -/
def getUpdatesLoop : List Json → Except PyError (List TelegramMessage)
  | [] => .ok []
  | raw :: rest => do
      let head ← pollElementParse raw
      let tail ← getUpdatesLoop rest
      match head with
      | none => pure tail
      | some m => pure (m :: tail)

/-- `client.TelegramApiClient.get_updates`, with the HTTP exchange
abstracted: `transport` is the outcome of `_post_json("getUpdates", ...)`
restricted to its decoded `result` list — `.error` when the request or the
response validation raised. -/
def get_updates (transport : Except PyError (List Json)) :
    Except PyError (List TelegramMessage) :=
  match transport with
  | .error e => .error e
  | .ok raw_updates => getUpdatesLoop raw_updates

/-- Python `max(message.update_id for message in messages)` over a
non-empty list: `none` exactly when the list is empty. -/
def batchMaxUpdateId : List TelegramMessage → Option Int
  | [] => none
  | m :: rest => some (rest.foldl (fun acc x => max acc x.update_id) m.update_id)

/-- `module.TelegramBotModule.poll_once`: the cursor `_next_update_id` is
threaded explicitly.  On an empty parsed batch the cursor is returned
unchanged; otherwise it becomes the highest parsed `update_id` plus one.  A
raised exception (transport failure or parse failure) leaves no new state. -/
def poll_once (next_update_id : Option Int)
    (transport : Except PyError (List Json)) :
    Except PyError (Option Int × List TelegramMessage) :=
  match get_updates transport with
  | .error e => .error e
  | .ok messages =>
      match batchMaxUpdateId messages with
      | none => .ok (next_update_id, [])
      | some highest_update_id => .ok (some (highest_update_id + 1), messages)

/-- Modelled from the spec: `client.parse_update_message` is imported by
`module.py` (line 12) and used by `module.TelegramBotModule.parse_update_message`
and the webhook app, but its definition is absent from the provided sources.
Spec section 4.2: it returns absent (not an error) for any update that does
not carry a message, and for a message-bearing update it applies the same
parsing policy as the long-poll path verbatim — the shared `_parse_message`. -/
def parse_update_message (raw_update : Json) :
    Except PyError (Option TelegramMessage) :=
  match raw_update with
  | .obj update_map =>
      match jget update_map "message" with
      | none => .ok none
      | some maybe_message =>
          match maybe_message with
          | .obj message_map =>
              match _parse_message update_map message_map with
              | .error e => .error e
              | .ok m => .ok (some m)
          | _ => .error ⟨.telegramApiError, "Expected object for 'message'"⟩
  | _ => .error ⟨.telegramApiError, "Expected object for 'update'"⟩

/-- `client.TelegramApiClient._post_json`, with the HTTP exchange
abstracted: `httpResult` is `.error detail` when `urlopen` raised
`HTTPError`/`URLError` with text `detail`, and `.ok decoded` when a body was
received and decoded by `json.loads`.  Returns the validated response
object's fields. -/
def _post_json (httpResult : Except String Json) :
    Except PyError (List (String × Json)) := do
  match httpResult with
  | .error detail =>
      .error ⟨.telegramApiError, "HTTP request to Telegram failed: " ++ detail⟩
  | .ok decoded => do
      let data ← _require_dict (some decoded) "response"
      let ok ← _require_bool (jget data "ok") "ok"
      if ok then
        pure data
      else do
        let desc_opt ← _optional_str (jget data "description")
        let description :=
          match desc_opt with
          | some d => if d = "" then "Unknown Telegram API error" else d
          | none => "Unknown Telegram API error"
        let error_code ← _optional_int (jget data "error_code")
        match error_code with
        | none => .error ⟨.telegramApiError, description⟩
        | some code =>
            .error ⟨.telegramApiError,
              "Telegram error " ++ toString code ++ ": " ++ description⟩

/-- Configuration fields of `module.TelegramBotModule` relevant to the
listening loop; the `float` delays become rationals. -/
structure ModuleCfg where
  errorRetrySleepSeconds : ℚ
  maxRetrySleepSeconds : ℚ
deriving DecidableEq, Repr

/-- Mutable loop state of `listen_forever`: the module's cursor
`_next_update_id` and the local `retry_sleep_seconds`. -/
structure ListenState where
  nextUpdateId : Option Int
  retrySleepSeconds : ℚ
deriving DecidableEq, Repr

/-- The `print` calls of `listen_forever`, as structured events so the
branch taken is visible without reproducing Python float formatting. -/
inductive LogEvent where
  | pollingError (msg : String) : LogEvent
  | unexpectedListenerError (msg : String) : LogEvent
  | handlerError (updateId : Int) (msg : String) : LogEvent
deriving DecidableEq, Repr

/-- Everything one iteration of the `while True` body of `listen_forever`
does: the state left for the next iteration, the `time.sleep` durations
performed in order, the messages passed to `handler` in order, the log
events printed, and the exception propagating out of the loop, if any. -/
structure StepResult where
  state : ListenState
  slept : List ℚ
  handled : List TelegramMessage
  logs : List LogEvent
  fatal : Option PyError
deriving DecidableEq, Repr

/-- The `for message in messages` dispatch loop (module.py lines 168-175):
every message is passed to the handler in order; a handler exception is
caught by `except Exception` and printed.  Returns the messages handled and
the log events, in order. -/
def dispatchBatch (handler : TelegramMessage → Except PyError Unit) :
    List TelegramMessage → List TelegramMessage × List LogEvent
  | [] => ([], [])
  | m :: rest =>
      let tail := dispatchBatch handler rest
      match handler m with
      | .ok _ => (m :: tail.1, tail.2)
      | .error e => (m :: tail.1, .handlerError m.update_id e.msg :: tail.2)

/-- One iteration of `module.TelegramBotModule.listen_forever`.
`transport` is the outcome of the cycle's HTTP exchange (see
`get_updates`); `poll_once` may additionally raise a parse failure.  The
source catches `TelegramApiError` and then `except Exception` — both
branches sleep the current retry delay and double it up to the ceiling, so
every `Exception`-class error is absorbed and `fatal` is `none` on all
paths; only the log message differs between the two branches.  On a
successful cycle the retry delay is reset before messages are dispatched. -/
def listenStep (cfg : ModuleCfg) (idleSleepSeconds : ℚ)
    (transport : Except PyError (List Json))
    (handler : TelegramMessage → Except PyError Unit)
    (st : ListenState) : StepResult :=
  match poll_once st.nextUpdateId transport with
  | .error e =>
      let log :=
        match e.klass with
        | .telegramApiError => LogEvent.pollingError e.msg
        | .otherException => LogEvent.unexpectedListenerError e.msg
      { state := { nextUpdateId := st.nextUpdateId,
                   retrySleepSeconds :=
                     min (st.retrySleepSeconds * 2) cfg.maxRetrySleepSeconds },
        slept := [st.retrySleepSeconds],
        handled := [],
        logs := [log],
        fatal := none }
  | .ok (cursor, messages) =>
      match messages with
      | [] =>
          { state := { nextUpdateId := cursor,
                       retrySleepSeconds := cfg.errorRetrySleepSeconds },
            slept := [idleSleepSeconds],
            handled := [],
            logs := [],
            fatal := none }
      | m :: rest =>
          let r := dispatchBatch handler (m :: rest)
          { state := { nextUpdateId := cursor,
                       retrySleepSeconds := cfg.errorRetrySleepSeconds },
            slept := [],
            handled := r.1,
            logs := r.2,
            fatal := none }

/-- The retry delay after one failing cycle (module.py lines 147-150 and
158-161): `min(retry_sleep_seconds * 2.0, max_retry_sleep_seconds)`. -/
def backoffAfterFailure (cfg : ModuleCfg) (r : ℚ) : ℚ :=
  min (r * 2) cfg.maxRetrySleepSeconds

/-- The delay slept before the `n`-th retry of an uninterrupted failure
streak that starts from the reset value `error_retry_sleep_seconds`. -/
def failureDelays (cfg : ModuleCfg) : ℕ → ℚ
  | 0 => cfg.errorRetrySleepSeconds
  | n + 1 => backoffAfterFailure cfg (failureDelays cfg n)

/-- The loop state after `n` consecutive failing cycles (every cycle's
transport raises `e`), starting from `st0`. -/
def failStreakState (cfg : ModuleCfg) (idleSleepSeconds : ℚ) (e : PyError)
    (handler : TelegramMessage → Except PyError Unit) (st0 : ListenState) :
    ℕ → ListenState
  | 0 => st0
  | n + 1 =>
      (listenStep cfg idleSleepSeconds (.error e) handler
        (failStreakState cfg idleSleepSeconds e handler st0 n)).state

/-- `module.TelegramBotModule.from_env` passes
`max(env_error_retry_sleep_seconds, env_max_retry_sleep_seconds)` as the
ceiling (module.py lines 107-110), so the configured floor never exceeds the
effective ceiling on that construction path. -/
def fromEnvEffectiveCeiling (floor ceiling : ℚ) : ℚ := max floor ceiling

/-- `client.TelegramApiClient.get_file_path`: `_post_json("getFile", ...)`,
then require the `result` object and its `file_path` string. -/
def get_file_path (httpResult : Except String Json) : Except PyError String := do
  let response ← _post_json httpResult
  let result ← _require_dict (jget response "result") "result"
  _require_str (jget result "file_path") "file_path"

/-- Files on disk as a name-to-content map; `write_bytes` overwrites. -/
def fsWrite (fs : List (String × List Nat)) (path : String)
    (content : List Nat) : List (String × List Nat) :=
  match fs with
  | [] => [(path, content)]
  | (p, c) :: rest =>
      if p = path then (p, content) :: rest else (p, c) :: fsWrite rest path content

/-- Content of a file, `none` when absent. -/
def fsRead (fs : List (String × List Nat)) (path : String) : Option (List Nat) :=
  match fs with
  | [] => none
  | (p, c) :: rest => if p = path then some c else fsRead rest path

/-- `client.TelegramApiClient.download_file`, bytes as `List Nat`.
`resolveResult` is the outcome of `get_file_path`; `fetchResult url` the
outcome of `urlopen(url).read()` (`.error detail` when `HTTPError`/`URLError`
raised).  `destination.parent.mkdir` touches directories only, never file
contents, and is not modelled.  The destination is written only after the
full byte stream has been read, as in the source (write_bytes is the last
statement). -/
def download_file (token : String) (resolveResult : Except PyError String)
    (fetchResult : String → Except String (List Nat))
    (fs : List (String × List Nat)) (destination : String) :
    Except PyError String × List (String × List Nat) :=
  match resolveResult with
  | .error e => (.error e, fs)
  | .ok file_path =>
      let file_url :=
        "https://api.telegram.org/file/bot" ++ token ++ "/" ++ file_path
      match fetchResult file_url with
      | .error detail =>
          (.error ⟨.telegramApiError,
            "Failed to download file from Telegram: " ++ detail⟩, fs)
      | .ok content => (.ok destination, fsWrite fs destination content)

/-- A FastAPI `HTTPException` as raised by the webhook endpoint. -/
structure HttpException' where
  statusCode : Nat
  detail : String
deriving DecidableEq, Repr

/-- Response body of a handled webhook request. -/
inductive WebhookResponse where
  | unsupported : WebhookResponse
  | processed (updateId chatId : Int) : WebhookResponse
deriving DecidableEq, Repr

/-- Side effects of one webhook request, in order, so that "the parser was
never invoked" is visible in the result. -/
inductive WebhookEvent where
  | parserInvoked : WebhookEvent
  | messageProcessed : WebhookEvent
deriving DecidableEq, Repr

/-- `telegram_webhook_app.telegram_webhook`: secret check first (compared
against the raw header value, absent header included), then JSON body
decoding, then `parse_update_message`, then message processing.
`body` is the outcome of `await request.json()` — `.error detail` when it
raised `ValueError`. -/
def telegram_webhook (secretToken : Option String)
    (headerSecretToken : Option String) (body : Except String Json) :
    Except HttpException' WebhookResponse × List WebhookEvent :=
  if secretToken.isSome ∧ headerSecretToken ≠ secretToken then
    (.error ⟨403, "Invalid Telegram webhook secret token"⟩, [])
  else
    match body with
    | .error detail =>
        (.error ⟨400, "Invalid JSON payload: " ++ detail⟩, [])
    | .ok payload =>
        match parse_update_message payload with
        | .error e =>
            (.error ⟨400, "Invalid Telegram update payload: " ++ e.msg⟩,
             [.parserInvoked])
        | .ok none => (.ok .unsupported, [.parserInvoked])
        | .ok (some m) =>
            (.ok (.processed m.update_id m.chat_id),
             [.parserInvoked, .messageProcessed])

/-- Split a POSIX path into its slash-separated chunks (file names modelled
as character lists so that induction is direct). -/
def splitSlash : List Char → List (List Char)
  | [] => [[]]
  | c :: rest =>
      let groups := splitSlash rest
      if c = '/' then [] :: groups
      else (c :: groups.headI) :: groups.tail

/-- `pathlib.PurePosixPath(s).name`: parsing drops empty chunks (root,
repeated or trailing slashes) and `.` components but keeps `..`; `name` is
the last remaining component, or empty when there is none. -/
def posixName (s : List Char) : List Char :=
  ((splitSlash s).filter (fun comp => ¬(comp = [] ∨ comp = ['.']))).getLast?.getD []

/-- `_safe_file_name` (identical in `telegram_webhook_app.py` and
`telegram_cli.py`): `Path(file_name).name`. -/
def safe_file_name (file_name : List Char) : List Char :=
  posixName file_name

/-- Decimal digit character, as Python `str` renders integers. -/
def natDigitChar (d : ℕ) : Char := Char.ofNat (48 + d)

/-- Structural helper for decimal rendering; the fuel argument bounds the
recursion and `natRepr` supplies enough of it. -/
def natDigitsAux : ℕ → ℕ → List Char
  | 0, _ => []
  | fuel + 1, n =>
      if n < 10 then [natDigitChar n]
      else natDigitsAux fuel (n / 10) ++ [natDigitChar (n % 10)]

/-- Decimal rendering of a natural number, as in a Python f-string. -/
def natRepr (n : ℕ) : List Char := natDigitsAux (n + 1) n

/-- Python `str` of an `int`, possibly with a leading minus sign. -/
def intRepr : Int → List Char
  | .ofNat n => natRepr n
  | .negSucc n => '-' :: natRepr (n + 1)

/-- The file name persisted for an incoming document
(`_process_incoming_message` in the webhook app, `handle_message` in the
CLI — the two bodies are identical): Python's falsy `or` replaces a missing
or empty `file_name` with `document_<message_id>.bin`, `_safe_file_name`
reduces it to its base name, and the saved name is
`<message_id>_<safe name>`. -/
def documentFileName (message_id : Int) (file_name : Option (List Char)) :
    List Char :=
  let raw_file_name :=
    match file_name with
    | none => ('d' :: 'o' :: 'c' :: 'u' :: 'm' :: 'e' :: 'n' :: 't' :: '_' :: intRepr message_id) ++ ['.', 'b', 'i', 'n']
    | some f =>
        if f = [] then
          ('d' :: 'o' :: 'c' :: 'u' :: 'm' :: 'e' :: 'n' :: 't' :: '_' :: intRepr message_id) ++ ['.', 'b', 'i', 'n']
        else f
  intRepr message_id ++ '_' :: safe_file_name raw_file_name

/-- `pathlib` join `dir / child`: a child starting with `/` is absolute and
replaces the base entirely; otherwise the two are joined with a slash. -/
def pathJoin (dir child : List Char) : List Char :=
  if child.head? = some '/' then child else dir ++ '/' :: child

/-- `download_dir / f"{message.message_id}_{file_name}"`, the destination
path for a saved document. -/
def documentPath (download_dir : List Char) (message_id : Int)
    (file_name : Option (List Char)) : List Char :=
  pathJoin download_dir (documentFileName message_id file_name)

/-- `p` is a direct child of directory `dir`: one more non-empty path
component that contains no separator and is neither `.` nor `..`. -/
def IsDirectChildOf (p dir : List Char) : Prop :=
  ∃ child, p = dir ++ '/' :: child ∧ '/' ∉ child ∧ child ≠ [] ∧
    child ≠ ['.'] ∧ child ≠ ['.', '.']

/-! Supporting lemmas about path components. -/

theorem splitSlash_ne_nil (s : List Char) : splitSlash s ≠ [] := by
  cases s with
  | nil => simp [splitSlash]
  | cons c rest =>
      by_cases h : c = '/' <;> simp [splitSlash, h]

theorem slash_not_mem_splitSlash (s : List Char) :
    ∀ comp ∈ splitSlash s, '/' ∉ comp := by
  induction s with
  | nil =>
      intro comp hc
      simp [splitSlash] at hc
      simp [hc]
  | cons c rest ih =>
      intro comp hc
      by_cases h : c = '/'
      · simp [splitSlash, h] at hc
        rcases hc with hc | hc
        · simp [hc]
        · exact ih comp hc
      · simp [splitSlash, h] at hc
        rcases hc with hc | hc
        · subst hc
          intro hmem
          rcases List.mem_cons.mp hmem with heq | hmem
          · exact h heq.symm
          · have hhead : (splitSlash rest).headI ∈ splitSlash rest := by
              cases hrest : splitSlash rest with
              | nil => exact absurd hrest (splitSlash_ne_nil rest)
              | cons g gs => simp [List.headI]
            exact ih _ hhead hmem
        · exact ih comp (List.mem_of_mem_tail hc)

theorem slash_not_mem_posixName (s : List Char) : '/' ∉ posixName s := by
  unfold posixName
  cases h : ((splitSlash s).filter
      (fun comp => ¬(comp = [] ∨ comp = ['.']))).getLast? with
  | none => simp [h]
  | some comp =>
      simp only [h, Option.getD_some]
      exact slash_not_mem_splitSlash s comp
        (List.mem_of_mem_filter (List.mem_of_mem_getLast? h))

theorem natDigitChar_ne_slash (d : ℕ) (hd : d < 10) : natDigitChar d ≠ '/' := by
  unfold natDigitChar
  interval_cases d <;> decide

theorem slash_not_mem_natDigitsAux (fuel : ℕ) :
    ∀ n, '/' ∉ natDigitsAux fuel n := by
  induction fuel with
  | zero => intro n; simp [natDigitsAux]
  | succ k ih =>
      intro n
      by_cases h : n < 10
      · simp only [natDigitsAux, if_pos h]
        intro hmem
        rcases List.mem_cons.mp hmem with heq | hmem
        · exact natDigitChar_ne_slash n h heq.symm
        · exact absurd hmem (List.not_mem_nil _)
      · simp only [natDigitsAux, if_neg h]
        intro hmem
        rcases List.mem_append.mp hmem with hmem | hmem
        · exact ih _ hmem
        · rcases List.mem_cons.mp hmem with heq | hmem
          · exact natDigitChar_ne_slash _ (Nat.mod_lt _ (by norm_num)) heq.symm
          · exact absurd hmem (List.not_mem_nil _)

theorem slash_not_mem_intRepr (m : Int) : '/' ∉ intRepr m := by
  cases m with
  | ofNat n => exact slash_not_mem_natDigitsAux _ n
  | negSucc n =>
      intro hmem
      rcases List.mem_cons.mp hmem with heq | hmem
      · exact absurd heq (by decide)
      · exact slash_not_mem_natDigitsAux _ _ hmem

theorem slash_not_mem_documentFileName (message_id : Int)
    (file_name : Option (List Char)) :
    '/' ∉ documentFileName message_id file_name := by
  unfold documentFileName
  intro hmem
  rcases List.mem_append.mp hmem with hmem | hmem
  · exact slash_not_mem_intRepr message_id hmem
  · rcases List.mem_cons.mp hmem with heq | hmem
    · exact absurd heq (by decide)
    · exact slash_not_mem_posixName _ hmem

theorem underscore_mem_documentFileName (message_id : Int)
    (file_name : Option (List Char)) :
    '_' ∈ documentFileName message_id file_name := by
  unfold documentFileName
  exact List.mem_append_right _ (List.mem_cons_self _ _)

/-- C10: for every incoming document message, the provider-supplied file
name is reduced to its base name before being joined to the download
directory, so the saved document path is always a direct child of the
configured download directory — even for names with separators or
traversal segments such as `../`. -/
theorem claim10_document_path_direct_child (download_dir : List Char)
    (message_id : Int) (file_name : Option (List Char)) :
    IsDirectChildOf (documentPath download_dir message_id file_name)
      download_dir := by
  have hslash := slash_not_mem_documentFileName message_id file_name
  have hunder := underscore_mem_documentFileName message_id file_name
  refine ⟨documentFileName message_id file_name, ?_, hslash, ?_, ?_, ?_⟩
  · unfold documentPath pathJoin
    rw [if_neg]
    intro hhead
    cases hchild : documentFileName message_id file_name with
    | nil => rw [hchild] at hhead; simp at hhead
    | cons c cs =>
        rw [hchild] at hhead
        simp only [List.head?] at hhead
        have : c = '/' := by injection hhead
        rw [hchild] at hslash
        exact hslash (this ▸ List.mem_cons_self c cs)
  · intro hnil
    rw [hnil] at hunder
    exact absurd hunder (List.not_mem_nil _)
  · intro hdot
    rw [hdot] at hunder
    exact absurd hunder (by decide)
  · intro hdots
    rw [hdots] at hunder
    exact absurd hunder (by decide)

/-- Concrete instance of C10: a traversal name `../../etc/passwd` for
message id 42 is saved as `dl/42_passwd`, a direct child of `dl`. -/
theorem claim10_document_path_direct_child_witness :
    IsDirectChildOf
      (documentPath "dl".data 42 (some "../../etc/passwd".data)) "dl".data :=
  claim10_document_path_direct_child "dl".data 42 (some "../../etc/passwd".data)

/-! Supporting lemmas about the fold computing the batch maximum. -/

theorem updMax_init_le (rest : List TelegramMessage) :
    ∀ a : Int, a ≤ rest.foldl (fun acc x => max acc x.update_id) a := by
  induction rest with
  | nil => intro a; exact le_refl a
  | cons b t ih =>
      intro a
      exact le_trans (le_max_left a b.update_id) (ih (max a b.update_id))

theorem updMax_mem_le (rest : List TelegramMessage) :
    ∀ a : Int, ∀ x ∈ rest,
      x.update_id ≤ rest.foldl (fun acc y => max acc y.update_id) a := by
  induction rest with
  | nil => intro a x hx; exact absurd hx (List.not_mem_nil _)
  | cons b t ih =>
      intro a x hx
      rcases List.mem_cons.mp hx with h | h
      · subst h
        exact le_trans (le_max_right a x.update_id) (updMax_init_le t _)
      · exact ih _ x h

theorem updMax_attained (rest : List TelegramMessage) :
    ∀ a : Int, rest.foldl (fun acc y => max acc y.update_id) a = a ∨
      rest.foldl (fun acc y => max acc y.update_id) a ∈
        rest.map (fun m => m.update_id) := by
  induction rest with
  | nil => intro a; exact Or.inl rfl
  | cons b t ih =>
      intro a
      rcases ih (max a b.update_id) with h | h
      · simp only [List.foldl_cons, h]
        rcases max_choice a b.update_id with h2 | h2
        · exact Or.inl h2
        · exact Or.inr (by simp [h2])
      · exact Or.inr (by simp only [List.foldl_cons]; simp [List.mem_cons]; right; simpa using h)

/-- C1 as amended: after a successful poll cycle the cursor is computed
from the *parsed* messages only — when at least one update carries a
message and all message-bearing updates parse, the cursor becomes the
highest parsed `update_id` plus one; when every update lacks a message the
cursor is unchanged (and a parse failure aborts the cycle before any cursor
update, since `poll_once` raises). -/
theorem claim1_amended_cursor_from_parsed_batch
    (next_update_id : Option Int) (raw_updates : List Json)
    (messages : List TelegramMessage)
    (hparse : getUpdatesLoop raw_updates = .ok messages) :
    (messages = [] →
      poll_once next_update_id (.ok raw_updates) = .ok (next_update_id, [])) ∧
    (messages ≠ [] → ∃ hi,
      poll_once next_update_id (.ok raw_updates) = .ok (some (hi + 1), messages) ∧
      (∀ m ∈ messages, m.update_id ≤ hi) ∧
      hi ∈ messages.map (fun m => m.update_id)) := by
  constructor
  · intro hnil
    subst hnil
    simp [poll_once, get_updates, hparse, batchMaxUpdateId]
  · intro hne
    match messages, hne, hparse with
    | m :: rest, _, hparse =>
        refine ⟨rest.foldl (fun acc x => max acc x.update_id) m.update_id,
          ?_, ?_, ?_⟩
        · simp [poll_once, get_updates, hparse, batchMaxUpdateId]
        · intro x hx
          rcases List.mem_cons.mp hx with h | h
          · subst h; exact updMax_init_le rest x.update_id
          · exact updMax_mem_le rest m.update_id x h
        · rcases updMax_attained rest m.update_id with h | h
          · rw [h]; simp
          · simp only [List.map_cons, List.mem_cons]
            exact Or.inr h

/-- C1 as stated is false on the code: a batch whose single update carries
no message is received successfully, yet the cursor stays at its previous
value instead of advancing to `max(update_id) + 1 = 8`. -/
theorem claim1_counterexample :
    poll_once (some 5) (.ok [Json.obj [("update_id", Json.int 7)]])
      = .ok (some 5, []) ∧ (some 5 : Option Int) ≠ some 8 := by
  exact ⟨rfl, by decide⟩

/-- Spec section 8 scenario for C1's amended form: batch with parsed
update ids 10 and 12 and prior cursor unset makes the cursor 13. -/
def exampleUpdate10 : Json :=
  .obj [("update_id", .int 10),
        ("message", .obj [("chat", .obj [("id", .int 500)]),
                          ("message_id", .int 1),
                          ("date", .int 1700000000),
                          ("text", .str "hi")])]

/-- Second update of the C1 scenario batch: a document message. -/
def exampleUpdate12 : Json :=
  .obj [("update_id", .int 12),
        ("message", .obj [("chat", .obj [("id", .int 500)]),
                          ("message_id", .int 2),
                          ("date", .int 1700000100),
                          ("document", .obj [("file_id", .str "f1"),
                                             ("file_unique_id", .str "u1")])])]

/-- Canonical message parsed from `exampleUpdate10`. -/
def exampleMessage10 : TelegramMessage :=
  ⟨10, 1, 500, none, some "hi", none, [], none, 1700000000⟩

/-- Canonical message parsed from `exampleUpdate12`. -/
def exampleMessage12 : TelegramMessage :=
  ⟨12, 2, 500, none, none, none, [], some ⟨"f1", "u1", none, none, none⟩,
   1700000100⟩

theorem claim1_amended_witness :
    getUpdatesLoop [exampleUpdate10, exampleUpdate12]
      = .ok [exampleMessage10, exampleMessage12] ∧
    (([exampleMessage10, exampleMessage12] : List TelegramMessage) = [] →
      poll_once none (.ok [exampleUpdate10, exampleUpdate12]) = .ok (none, [])) ∧
    (([exampleMessage10, exampleMessage12] : List TelegramMessage) ≠ [] → ∃ hi,
      poll_once none (.ok [exampleUpdate10, exampleUpdate12])
        = .ok (some (hi + 1), [exampleMessage10, exampleMessage12]) ∧
      (∀ m ∈ [exampleMessage10, exampleMessage12], m.update_id ≤ hi) ∧
      hi ∈ [exampleMessage10, exampleMessage12].map (fun m => m.update_id)) :=
  ⟨rfl,
   (claim1_amended_cursor_from_parsed_batch none
     [exampleUpdate10, exampleUpdate12]
     [exampleMessage10, exampleMessage12] rfl).1,
   (claim1_amended_cursor_from_parsed_batch none
     [exampleUpdate10, exampleUpdate12]
     [exampleMessage10, exampleMessage12] rfl).2⟩

/-! Supporting lemmas about the retry backoff. -/

theorem failureDelays_bounds (cfg : ModuleCfg)
    (h0 : 0 ≤ cfg.errorRetrySleepSeconds)
    (h1 : cfg.errorRetrySleepSeconds ≤ cfg.maxRetrySleepSeconds) :
    ∀ n, 0 ≤ failureDelays cfg n ∧
      failureDelays cfg n ≤ cfg.maxRetrySleepSeconds := by
  intro n
  induction n with
  | zero => exact ⟨h0, h1⟩
  | succ k ih =>
      refine ⟨le_min ?_ (h0.trans h1), min_le_right _ _⟩
      nlinarith [ih.1]

theorem failStreakState_retry (cfg : ModuleCfg) (idle : ℚ) (e : PyError)
    (handler : TelegramMessage → Except PyError Unit) (st0 : ListenState)
    (hst : st0.retrySleepSeconds = cfg.errorRetrySleepSeconds) :
    ∀ n, (failStreakState cfg idle e handler st0 n).retrySleepSeconds
      = failureDelays cfg n := by
  intro n
  induction n with
  | zero => simpa [failStreakState, failureDelays] using hst
  | succ k ih =>
      simp [failStreakState, listenStep, poll_once, get_updates,
        failureDelays, backoffAfterFailure, ih]

/-- The backoff behaviour claimed by C2, relative to a configuration:
during an uninterrupted failure streak started from the reset value, the
delay slept before the `n`-th retry is `failureDelays cfg n`; those delays
are monotonically non-decreasing and never exceed the ceiling; and any
successful poll cycle resets the delay to the floor. -/
def BackoffSpec (cfg : ModuleCfg) : Prop :=
  (∀ (idle : ℚ) (e : PyError) (handler : TelegramMessage → Except PyError Unit)
      (st0 : ListenState),
    st0.retrySleepSeconds = cfg.errorRetrySleepSeconds →
    ∀ n, (listenStep cfg idle (.error e) handler
      (failStreakState cfg idle e handler st0 n)).slept
      = [failureDelays cfg n]) ∧
  (∀ n, failureDelays cfg n ≤ failureDelays cfg (n + 1)) ∧
  (∀ n, failureDelays cfg n ≤ cfg.maxRetrySleepSeconds) ∧
  (∀ (idle : ℚ) (raw : List Json)
      (handler : TelegramMessage → Except PyError Unit) (st : ListenState)
      (c : Option Int) (messages : List TelegramMessage),
    poll_once st.nextUpdateId (.ok raw) = .ok (c, messages) →
    (listenStep cfg idle (.ok raw) handler st).state.retrySleepSeconds
      = cfg.errorRetrySleepSeconds)

/-- C2: with a non-negative floor no larger than the ceiling (which is what
`from_env` guarantees, see `fromEnvEffectiveCeiling`), the backoff delays
slept over consecutive poll failures are monotonically non-decreasing,
never exceed `max_retry_sleep_seconds`, and one successful poll cycle
resets the delay to `error_retry_sleep_seconds`. -/
theorem claim2_backoff_monotone_capped_reset (cfg : ModuleCfg)
    (h0 : 0 ≤ cfg.errorRetrySleepSeconds)
    (h1 : cfg.errorRetrySleepSeconds ≤ cfg.maxRetrySleepSeconds) :
    BackoffSpec cfg := by
  refine ⟨?_, ?_, ?_, ?_⟩
  · intro idle e handler st0 hst n
    simp [listenStep, poll_once, get_updates,
      failStreakState_retry cfg idle e handler st0 hst n]
  · intro n
    refine le_min ?_ (failureDelays_bounds cfg h0 h1 n).2
    nlinarith [(failureDelays_bounds cfg h0 h1 n).1]
  · intro n
    exact (failureDelays_bounds cfg h0 h1 n).2
  · intro idle raw handler st c messages h
    cases messages with
    | nil => simp [listenStep, h]
    | cons m rest => simp [listenStep, h]

theorem claim2_backoff_witness :
    (0 : ℚ) ≤ 1 ∧ (1 : ℚ) ≤ 30 ∧
      BackoffSpec ⟨1, 30⟩ ∧
      failureDelays ⟨1, 30⟩ 0 = 1 ∧ failureDelays ⟨1, 30⟩ 1 = 2 ∧
      failureDelays ⟨1, 30⟩ 2 = 4 :=
  ⟨by norm_num, by norm_num,
   claim2_backoff_monotone_capped_reset ⟨1, 30⟩ (by norm_num) (by norm_num),
   by norm_num [failureDelays, backoffAfterFailure, min_def],
   by norm_num [failureDelays, backoffAfterFailure, min_def],
   by norm_num [failureDelays, backoffAfterFailure, min_def]⟩

instance {ε α : Type} [DecidableEq ε] [DecidableEq α] :
    DecidableEq (Except ε α) := fun x y =>
  match x, y with
  | .error a, .error b =>
      if h : a = b then .isTrue (by rw [h])
      else .isFalse (fun hh => h (Except.error.inj hh))
  | .error _, .ok _ => .isFalse (fun hh => Except.noConfusion hh)
  | .ok _, .error _ => .isFalse (fun hh => Except.noConfusion hh)
  | .ok a, .ok b =>
      if h : a = b then .isTrue (by rw [h])
      else .isFalse (fun hh => h (Except.ok.inj hh))

/-- Chat object for the C3 test family: present either with or without its
`id` field ("conversation id missing" keeps the chat object itself). -/
def chatOfC3 (hasChatId : Bool) : Json :=
  .obj (if hasChatId then [("id", .int 77)] else [])

/-- Message-bearing payload family for C3: the chat id, message id and
timestamp are present or absent per flag, as are `text` and `caption`; all
remaining fields (sender, photos, document) are absent, hence optional. -/
def testMessageMap (hc hm hd ht hcap : Bool) : List (String × Json) :=
  ("chat", chatOfC3 hc) ::
    ((if hm then [("message_id", Json.int 5)] else []) ++
     (if hd then [("date", Json.int 1700000000)] else []) ++
     (if ht then [("text", Json.str "hi")] else []) ++
     (if hcap then [("caption", Json.str "cap")] else []))

/-- Enclosing update object of the C3 family. -/
def testUpdateMap : List (String × Json) := [("update_id", Json.int 9)]

/-- The canonical message expected for a successfully parsing member of the
C3 family. -/
def expectedC3 (ht hcap : Bool) : TelegramMessage :=
  ⟨9, 5, 77, none, if ht then some "hi" else none,
   if hcap then some "cap" else none, [], none, 1700000000⟩

/-- C3 as amended: parsing a message-bearing update fails — with a
`TelegramApiError`, the one error class the client uses for transport
failures as well — exactly when the chat id, the message id, or the
timestamp is missing; an update missing only `text` and `caption` parses
successfully with both fields absent. -/
theorem claim3_amended_required_fields (hc hm hd ht hcap : Bool) :
    if hc && hm && hd then
      _parse_message testUpdateMap (testMessageMap hc hm hd ht hcap)
        = .ok (expectedC3 ht hcap)
    else
      errKlass (_parse_message testUpdateMap (testMessageMap hc hm hd ht hcap))
        = some PyExcClass.telegramApiError := by
  cases hc <;> cases hm <;> cases hd <;> cases ht <;> cases hcap <;> decide

/-- C3 as stated is false in its "distinct error kind" part: `client.py`
defines a single exception class `TelegramApiError`, so on a message-bearing
update with a missing conversation id the parser raises an error of exactly
the class that `_post_json` raises on a transport failure — the two kinds
are not distinct. -/
theorem claim3_counterexample :
    errKlass (_parse_message testUpdateMap
        (testMessageMap false true true false false))
      = errKlass (_post_json (.error "connection refused")) ∧
    errKlass (_parse_message testUpdateMap
        (testMessageMap false true true false false))
      = some PyExcClass.telegramApiError := ⟨rfl, rfl⟩

theorem claim3_amended_witness :
    if true && true && true then
      _parse_message testUpdateMap (testMessageMap true true true false false)
        = .ok (expectedC3 false false)
    else
      errKlass (_parse_message testUpdateMap
        (testMessageMap true true true false false))
        = some PyExcClass.telegramApiError :=
  claim3_amended_required_fields true true true false false

/-- C4: a raw update object that does not carry a `message` field (an
update kind the system does not model) parses to absent on the long-poll
path — where `get_updates` skips it — and on the webhook path, with no
error raised. -/
theorem claim4_messageless_update_absent (update_map : List (String × Json))
    (h : jget update_map "message" = none) :
    pollElementParse (.obj update_map) = .ok none ∧
    parse_update_message (.obj update_map) = .ok none := by
  constructor
  · simp [pollElementParse, _require_dict, h]
  · simp [parse_update_message, h]

theorem claim4_messageless_update_absent_witness :
    jget [("update_id", Json.int 7), ("edited_message", Json.obj [])]
      "message" = none ∧
    (pollElementParse (.obj [("update_id", Json.int 7),
        ("edited_message", Json.obj [])]) = .ok none ∧
     parse_update_message (.obj [("update_id", Json.int 7),
        ("edited_message", Json.obj [])]) = .ok none) :=
  ⟨rfl, claim4_messageless_update_absent
    [("update_id", Json.int 7), ("edited_message", Json.obj [])] rfl⟩

/-- C5: for every raw update payload, the webhook-path parser
(`parse_update_message`, modelled from the spec as the shared parsing
policy) and the per-element parsing step of the long-poll path agree
exactly — same canonical message, same absent result, same error. -/
theorem pollElementParse_obj (u : List (String × Json)) :
    pollElementParse (.obj u)
      = (match jget u "message" with
         | none => (.ok none : Except PyError (Option TelegramMessage))
         | some maybe_message =>
             match _require_dict (some maybe_message) "message" with
             | .error e => .error e
             | .ok message_map =>
                 match _parse_message u message_map with
                 | .error e => .error e
                 | .ok m => .ok (some m)) := rfl

theorem parse_update_message_obj (u : List (String × Json)) :
    parse_update_message (.obj u)
      = (match jget u "message" with
         | none => (.ok none : Except PyError (Option TelegramMessage))
         | some maybe_message =>
             match maybe_message with
             | .obj message_map =>
                 (match _parse_message u message_map with
                  | .error e => .error e
                  | .ok m => .ok (some m))
             | _ => .error ⟨.telegramApiError, "Expected object for 'message'"⟩) :=
  rfl

theorem claim5_poll_webhook_parser_equivalence (raw_update : Json) :
    parse_update_message raw_update = pollElementParse raw_update := by
  cases raw_update with
  | obj update_map =>
      rw [pollElementParse_obj, parse_update_message_obj]
      cases h : jget update_map "message" with
      | none => rfl
      | some mj =>
          cases mj with
          | obj message_map => rfl
          | null => rfl
          | bool b => rfl
          | int n => rfl
          | str s => rfl
          | arr elems => rfl
  | null => rfl
  | bool b => rfl
  | int n => rfl
  | str s => rfl
  | arr elems => rfl

/-- C6: when a webhook secret token is configured and the request's secret
header differs from it (an absent header included), the request is rejected
with status 403 and the handler performs no effect at all — in particular
the update parser is never invoked and the body is never inspected. -/
theorem claim6_webhook_secret_checked_first (s : String)
    (headerSecretToken : Option String) (body : Except String Json)
    (h : headerSecretToken ≠ some s) :
    telegram_webhook (some s) headerSecretToken body
      = (.error ⟨403, "Invalid Telegram webhook secret token"⟩, []) ∧
    WebhookEvent.parserInvoked
      ∉ (telegram_webhook (some s) headerSecretToken body).2 := by
  unfold telegram_webhook
  rw [if_pos (show ((some s : Option String).isSome : Prop)
    ∧ headerSecretToken ≠ some s from ⟨rfl, h⟩)]
  exact ⟨rfl, by simp⟩

theorem claim6_webhook_secret_checked_first_witness :
    (some "wrong" : Option String) ≠ some "abc" ∧
    (telegram_webhook (some "abc") (some "wrong")
        (.ok (.obj [("update_id", .int 5),
          ("message", .obj [("chat", .obj [("id", .int 500)]),
                            ("message_id", .int 1),
                            ("date", .int 1700000000),
                            ("text", .str "x")])]))
      = (.error ⟨403, "Invalid Telegram webhook secret token"⟩, []) ∧
    WebhookEvent.parserInvoked
      ∉ (telegram_webhook (some "abc") (some "wrong")
        (.ok (.obj [("update_id", .int 5),
          ("message", .obj [("chat", .obj [("id", .int 500)]),
                            ("message_id", .int 1),
                            ("date", .int 1700000000),
                            ("text", .str "x")])]))).2) :=
  ⟨by decide,
   claim6_webhook_secret_checked_first "abc" (some "wrong") _ (by decide)⟩

/-! Supporting lemmas about the dispatch loop. -/

theorem dispatchBatch_handled
    (handler : TelegramMessage → Except PyError Unit) :
    ∀ messages : List TelegramMessage,
      (dispatchBatch handler messages).1 = messages := by
  intro messages
  induction messages with
  | nil => rfl
  | cons m rest ih =>
      cases hm : handler m <;> simp [dispatchBatch, hm, ih]

theorem dispatchBatch_logs
    (handler : TelegramMessage → Except PyError Unit) :
    ∀ messages : List TelegramMessage,
      (dispatchBatch handler messages).2 = messages.filterMap
        (fun m => match handler m with
          | .error e => some (LogEvent.handlerError m.update_id e.msg)
          | .ok _ => none) := by
  intro messages
  induction messages with
  | nil => rfl
  | cons m rest ih =>
      cases hm : handler m <;> simp [dispatchBatch, hm, ih, List.filterMap_cons]

/-- C7: on a cycle whose poll succeeded with a non-empty batch, handler
exceptions are isolated per message — every message of the batch is passed
to the handler in delivery order regardless of earlier failures, each
failure is reported as a handler-error log, the cursor is exactly the value
`poll_once` produced (dispatch cannot change it), and nothing propagates
out of the loop. -/
theorem claim7_handler_errors_isolated (cfg : ModuleCfg) (idle : ℚ)
    (raw : List Json) (handler : TelegramMessage → Except PyError Unit)
    (st : ListenState) (c : Option Int) (messages : List TelegramMessage)
    (h : poll_once st.nextUpdateId (.ok raw) = .ok (c, messages))
    (hne : messages ≠ []) :
    (listenStep cfg idle (.ok raw) handler st).handled = messages ∧
    (listenStep cfg idle (.ok raw) handler st).logs = messages.filterMap
      (fun m => match handler m with
        | .error e => some (LogEvent.handlerError m.update_id e.msg)
        | .ok _ => none) ∧
    (listenStep cfg idle (.ok raw) handler st).state.nextUpdateId = c ∧
    (listenStep cfg idle (.ok raw) handler st).fatal = none := by
  match messages, hne with
  | m :: rest, _ =>
      refine ⟨?_, ?_, ?_, ?_⟩ <;>
        simp [listenStep, h, dispatchBatch_handled, dispatchBatch_logs]

/-- Handler used in the C7 witness: fails exactly on update id 10. -/
def failingHandler : TelegramMessage → Except PyError Unit :=
  fun m => if m.update_id = 10 then .error ⟨.otherException, "boom"⟩ else .ok ()

theorem claim7_handler_errors_isolated_witness :
    poll_once none (.ok [exampleUpdate10, exampleUpdate12])
      = .ok (some 13, [exampleMessage10, exampleMessage12]) ∧
    ([exampleMessage10, exampleMessage12] : List TelegramMessage) ≠ [] ∧
    ((listenStep ⟨1, 30⟩ (1/10) (.ok [exampleUpdate10, exampleUpdate12])
        failingHandler ⟨none, 1⟩).handled
      = [exampleMessage10, exampleMessage12] ∧
     (listenStep ⟨1, 30⟩ (1/10) (.ok [exampleUpdate10, exampleUpdate12])
        failingHandler ⟨none, 1⟩).logs
      = [exampleMessage10, exampleMessage12].filterMap
        (fun m => match failingHandler m with
          | .error e => some (LogEvent.handlerError m.update_id e.msg)
          | .ok _ => none) ∧
     (listenStep ⟨1, 30⟩ (1/10) (.ok [exampleUpdate10, exampleUpdate12])
        failingHandler ⟨none, 1⟩).state.nextUpdateId = some 13 ∧
     (listenStep ⟨1, 30⟩ (1/10) (.ok [exampleUpdate10, exampleUpdate12])
        failingHandler ⟨none, 1⟩).fatal = none) :=
  ⟨rfl, by decide,
   claim7_handler_errors_isolated ⟨1, 30⟩ (1/10)
     [exampleUpdate10, exampleUpdate12] failingHandler ⟨none, 1⟩
     (some 13) [exampleMessage10, exampleMessage12] rfl (by decide)⟩

/-- C8 as amended: the listening loop recovers internally from *every*
exception a poll cycle raises — `TelegramApiError` and any other
`Exception` subclass (logic defects included) are both caught, logged
(with branch-specific messages), slept on and retried with the same doubled
and capped backoff; neither kind propagates out of the loop. -/
theorem claim8_amended_all_exceptions_recovered (cfg : ModuleCfg) (idle : ℚ)
    (e : PyError) (handler : TelegramMessage → Except PyError Unit)
    (st : ListenState) :
    (listenStep cfg idle (.error e) handler st).fatal = none ∧
    (listenStep cfg idle (.error e) handler st).slept
      = [st.retrySleepSeconds] ∧
    (listenStep cfg idle (.error e) handler st).state.nextUpdateId
      = st.nextUpdateId ∧
    (listenStep cfg idle (.error e) handler st).state.retrySleepSeconds
      = backoffAfterFailure cfg st.retrySleepSeconds ∧
    (listenStep cfg idle (.error e) handler st).logs
      = [match e.klass with
         | .telegramApiError => LogEvent.pollingError e.msg
         | .otherException => LogEvent.unexpectedListenerError e.msg] := by
  refine ⟨?_, ?_, ?_, ?_, ?_⟩ <;>
    simp [listenStep, poll_once, get_updates, backoffAfterFailure]

/-- C8 as stated is false on the code: a non-`TelegramApiError` exception
(here a `TypeError` from a logic defect) raised during a poll cycle does
not propagate out of the loop — `listen_forever`'s second `except
Exception` clause catches it, logs it as an unexpected listener error,
sleeps the current delay and doubles it, and the loop continues. -/
theorem claim8_counterexample :
    listenStep ⟨1, 30⟩ (1/10)
      (.error ⟨.otherException, "TypeError: unsupported operand"⟩)
      (fun _ => .ok ()) ⟨none, 1⟩
      = { state := ⟨none, 2⟩,
          slept := [1],
          handled := [],
          logs := [.unexpectedListenerError "TypeError: unsupported operand"],
          fatal := none } := by
  norm_num [listenStep, poll_once, get_updates, min_def]

/-- C9: on a file download, a failure of either the handle-resolution step
or the byte-stream fetch step surfaces as a `TelegramApiError` (the code's
TransportError) and leaves the file system untouched — the destination is
written only on the success path, after the full byte stream was read. -/
theorem claim9_download_failure_leaves_destination (token : String)
    (resolveResult : Except PyError String)
    (fetchResult : String → Except String (List Nat))
    (fs : List (String × List Nat)) (destination : String)
    (hres : ∀ e, resolveResult = .error e →
      e.klass = PyExcClass.telegramApiError) :
    (∀ e, (download_file token resolveResult fetchResult fs destination).1
        = .error e →
      e.klass = PyExcClass.telegramApiError ∧
      (download_file token resolveResult fetchResult fs destination).2 = fs) ∧
    (∀ p, (download_file token resolveResult fetchResult fs destination).1
        = .ok p → p = destination) := by
  cases resolveResult with
  | error e0 =>
      refine ⟨?_, ?_⟩
      · intro e he
        have hee : Except.error e0 = (Except.error e : Except PyError String) := by
          simpa [download_file] using he
        have : e0 = e := Except.error.inj hee
        subst this
        exact ⟨hres e0 rfl, by simp [download_file]⟩
      · intro p hp
        simp [download_file] at hp
  | ok fp =>
      cases hf : fetchResult
          ("https://api.telegram.org/file/bot" ++ token ++ "/" ++ fp) with
      | error detail =>
          refine ⟨?_, ?_⟩
          · intro e he
            have hee : e = ⟨PyExcClass.telegramApiError,
                "Failed to download file from Telegram: " ++ detail⟩ := by
              have := he
              simp [download_file, hf] at this
              exact this.symm
            subst hee
            exact ⟨rfl, by simp [download_file, hf]⟩
          · intro p hp
            simp [download_file, hf] at hp
      | ok content =>
          refine ⟨?_, ?_⟩
          · intro e he
            simp [download_file, hf] at he
          · intro p hp
            simpa [download_file, hf] using hp.symm

theorem claim9_download_failure_leaves_destination_witness :
    (∀ e, (download_file "T"
        (.error ⟨PyExcClass.telegramApiError, "Telegram error 400: bad"⟩)
        (fun _ => .ok [1, 2]) [("out.bin", [9])] "out.bin").1 = .error e →
      e.klass = PyExcClass.telegramApiError ∧
      (download_file "T"
        (.error ⟨PyExcClass.telegramApiError, "Telegram error 400: bad"⟩)
        (fun _ => .ok [1, 2]) [("out.bin", [9])] "out.bin").2
        = [("out.bin", [9])]) ∧
    (∀ p, (download_file "T"
        (.error ⟨PyExcClass.telegramApiError, "Telegram error 400: bad"⟩)
        (fun _ => .ok [1, 2]) [("out.bin", [9])] "out.bin").1 = .ok p →
      p = "out.bin") :=
  claim9_download_failure_leaves_destination "T"
    (.error ⟨PyExcClass.telegramApiError, "Telegram error 400: bad"⟩)
    (fun _ => .ok [1, 2]) [("out.bin", [9])] "out.bin"
    (fun e he => by
      have : (⟨PyExcClass.telegramApiError, "Telegram error 400: bad"⟩ : PyError)
          = e := Except.error.inj he
      rw [this.symm])

end TradingTool
